import Mathlib

/-!
Shallow embedding of the background job dispatch engine from
`authentication_background/src/lib.rs`.

The Rust source defines:
- `Message<T>` (a work item: name, optional payload, retry counter),
- `Error` (the error taxonomy),
- `InitialConfig<T>` (the handler registry) with `register_handler`,
- `run` (spawns the worker thread that drains an mpsc channel), and
- `cleanup` (sends the exit sentinel and joins the worker).

The mpsc channel is modelled as a list of pending messages together with a
boolean `alive` flag: a send succeeds exactly when the receiving end is
still alive, mirroring `std::sync::mpsc` where `send` fails only after the
`Receiver` has been dropped.  The worker loop owns the receiver, so the
model of `run` instantiates `alive := true`.
-/

namespace AuthBackground

/-- Embeds `Message<T>`: `name`, `message` (the optional payload) and
`retries` (an `i32`, modelled as `Int`). -/
structure Message (T : Type) where
  name : String
  message : Option T
  retries : Int
deriving DecidableEq

/-- Embeds `Message::new`, which fixes `retries` to 10. -/
def Message.new {T : Type} (name : String) (message : Option T) : Message T :=
  { name := name, message := message, retries := 10 }

/-- Embeds the `Error` enum of the source. -/
inductive Error : Type where
  | ProcessingError : String → Error
  | DuplicateHandler : String → Error
  | ExitHandler : Error
  | SendError : Error
  | JoinError : Error
deriving DecidableEq

/-- A handler, `Fn(&Option<T>) -> Result<(), Error>` in the source. -/
abbrev Handler (T : Type) := Option T → Except Error Unit

/-- Lookup in the handler map (`HashMap::get`), modelled on an association
list with unique keys: the first binding of the name wins. -/
def handlersGet {T : Type} : List (String × Handler T) → String → Option (Handler T)
  | [], _ => none
  | (k, v) :: rest, name => if k = name then some v else handlersGet rest name

/-- Membership test in the handler map (`HashMap::contains_key`). -/
def containsKey {T : Type} : List (String × Handler T) → String → Bool
  | [], _ => false
  | (k, _) :: rest, name => k == name || containsKey rest name

/-- Embeds `InitialConfig<T>`: the handler registry built before start. -/
structure InitialConfig (T : Type) where
  handlers : List (String × Handler T)

/-- Embeds `InitialConfig::new`. -/
def InitialConfig.new {T : Type} : InitialConfig T := { handlers := [] }

/-- Embeds `InitialConfig::register_handler`.  The source takes `&mut self`
and returns `Result<(), Error>`; here the mutation is made explicit by
returning the result together with the post-state of the registry.  An
early error return leaves the registry exactly as it was. -/
def InitialConfig.register_handler {T : Type} (c : InitialConfig T)
    (name : String) (handler : Handler T) :
    Except Error Unit × InitialConfig T :=
  if name = "exit" then
    (.error .ExitHandler, c)
  else if containsKey c.handlers name then
    (.error (.DuplicateHandler name), c)
  else
    (.ok (), { handlers := c.handlers ++ [(name, handler)] })

/-- Observable events of one worker-loop execution, in order:
`exited` for the `break` on the sentinel, `noHandler` for the
"No handler for message" diagnostic, `succeeded` for a handler returning
`Ok`, `retried old new` for the "retrying" diagnostic followed by the
resubmission of `new`, and `permanentlyFailed` for the
"failed permanently" diagnostic. -/
inductive Event (T : Type) : Type where
  | exited : Event T
  | noHandler : String → Event T
  | succeeded : String → Event T
  | retried : Message T → Message T → Event T
  | permanentlyFailed : String → Event T
deriving DecidableEq

/-- Outcome of running the worker loop to completion: either the loop
finished normally (sentinel received, or channel drained and closed), or
the thread panicked, as `.expect` does when the requeue send fails.  Both
carry the trace of events emitted up to that point. -/
inductive LoopResult (T : Type) : Type where
  | finished : List (Event T) → LoopResult T
  | panicked : String → List (Event T) → LoopResult T
deriving DecidableEq

/-- Prepend an event to the trace of a loop outcome. -/
def LoopResult.cons {T : Type} (e : Event T) : LoopResult T → LoopResult T
  | .finished tr => .finished (e :: tr)
  | .panicked s tr => .panicked s (e :: tr)

/-- The trace of events of a loop outcome. -/
def LoopResult.trace {T : Type} : LoopResult T → List (Event T)
  | .finished tr => tr
  | .panicked _ tr => tr

/-- Whether the loop outcome is a panic. -/
def LoopResult.isPanic {T : Type} : LoopResult T → Bool
  | .finished _ => false
  | .panicked _ _ => true

/-- Termination measure for the worker loop: each pending message
contributes its retry budget plus one. -/
def qMeasure {T : Type} (q : List (Message T)) : Nat :=
  (q.map (fun m => m.retries.toNat + 1)).sum

/-- Embeds the `for msg in receiver` loop inside `run`.  `hs` is the frozen
handler map, `alive` states whether the receiving end of the channel is
still alive (so whether `thread_hook.send` can succeed), and the list is
the current channel content.  A failed handler with retries left is
resubmitted at the tail of the channel; if that send fails, the `.expect`
call of the source panics the thread with its message. -/
def workerLoop {T : Type} (hs : List (String × Handler T)) (alive : Bool) :
    List (Message T) → LoopResult T
  | [] => .finished []
  | msg :: rest =>
    if msg.name = "exit" then
      .finished [.exited]
    else
      match handlersGet hs msg.name with
      | none => LoopResult.cons (.noHandler msg.name) (workerLoop hs alive rest)
      | some h =>
        match h msg.message with
        | .ok _ => LoopResult.cons (.succeeded msg.name) (workerLoop hs alive rest)
        | .error _ =>
          if 0 < msg.retries then
            if alive then
              LoopResult.cons
                (.retried msg { name := msg.name, message := msg.message, retries := msg.retries - 1 })
                (workerLoop hs alive
                  (rest ++ [{ name := msg.name, message := msg.message, retries := msg.retries - 1 }]))
            else
              .panicked "Failed to requeue task"
                [.retried msg { name := msg.name, message := msg.message, retries := msg.retries - 1 }]
          else
            LoopResult.cons (.permanentlyFailed msg.name) (workerLoop hs alive rest)
termination_by q => qMeasure q
decreasing_by
  all_goals (simp [qMeasure] <;> omega)

/-- Embeds the worker thread spawned by `run`: the spawned closure owns the
`receiver`, so while the loop runs the receiving end is alive and
`alive := true`. -/
def run {T : Type} (config : InitialConfig T) (queue : List (Message T)) : LoopResult T :=
  workerLoop config.handlers true queue

/-- Embeds one `Sender::send` on the dispatch channel, together with the
`From<mpsc::SendError<_>> for Error` conversion: the send succeeds and
appends to the channel content exactly when the receiver is alive. -/
def sendMessage {T : Type} (alive : Bool) (q : List (Message T)) (m : Message T) :
    Except Error (List (Message T)) :=
  if alive then .ok (q ++ [m]) else .error .SendError

/-- Embeds `cleanup`: send the exit sentinel on the hook (`?` turns a send
failure into `Error::SendError`), then join the worker thread (`?` turns a
panicked thread into `Error::JoinError`).  `joinPanicked` states whether
the worker thread terminated by panicking; the pair returns the result
together with the channel content after the send. -/
def cleanup {T : Type} (alive : Bool) (q : List (Message T)) (joinPanicked : Bool) :
    Except Error Unit × List (Message T) :=
  match sendMessage alive q { name := "exit", message := none, retries := 0 } with
  | .error e => (.error e, q)
  | .ok q2 => if joinPanicked then (.error .JoinError, q2) else (.ok (), q2)

/-- Whether an event records an invocation of the handler registered under
`name` (each of success, retry and permanent failure corresponds to exactly
one synchronous handler invocation in the source loop). -/
def isInvocationOf {T : Type} (name : String) : Event T → Bool
  | .succeeded n => n == name
  | .retried old _ => old.name == name
  | .permanentlyFailed n => n == name
  | _ => false

/-- Number of handler invocations for `name` recorded in a trace. -/
def invocationCount {T : Type} (tr : List (Event T)) (name : String) : Nat :=
  (tr.filter (isInvocationOf name)).length

/-- A handler that fails on every invocation (test fixture). -/
def alwaysFail : Handler Nat := fun _ => .error (.ProcessingError "boom")

/-- A handler that succeeds on every invocation (test fixture). -/
def alwaysOk : Handler Nat := fun _ => .ok ()

theorem trace_cons {T : Type} (e : Event T) (r : LoopResult T) :
    (LoopResult.cons e r).trace = e :: r.trace := by
  cases r <;> rfl

theorem isPanic_cons {T : Type} (e : Event T) (r : LoopResult T) :
    (LoopResult.cons e r).isPanic = r.isPanic := by
  cases r <;> rfl

theorem workerLoop_nil {T : Type} (hs : List (String × Handler T)) (alive : Bool) :
    workerLoop hs alive [] = .finished [] := by
  simp [workerLoop]

theorem workerLoop_exit {T : Type} (hs : List (String × Handler T)) (alive : Bool)
    (msg : Message T) (rest : List (Message T)) (h : msg.name = "exit") :
    workerLoop hs alive (msg :: rest) = .finished [.exited] := by
  rw [workerLoop]
  simp [h]

theorem workerLoop_noHandler {T : Type} (hs : List (String × Handler T)) (alive : Bool)
    (msg : Message T) (rest : List (Message T)) (h1 : msg.name ≠ "exit")
    (h2 : handlersGet hs msg.name = none) :
    workerLoop hs alive (msg :: rest) =
      LoopResult.cons (.noHandler msg.name) (workerLoop hs alive rest) := by
  rw [workerLoop]
  simp [h1, h2]

theorem workerLoop_ok {T : Type} (hs : List (String × Handler T)) (alive : Bool)
    (msg : Message T) (rest : List (Message T)) (h : Handler T) (h1 : msg.name ≠ "exit")
    (h2 : handlersGet hs msg.name = some h) (h3 : h msg.message = .ok ()) :
    workerLoop hs alive (msg :: rest) =
      LoopResult.cons (.succeeded msg.name) (workerLoop hs alive rest) := by
  rw [workerLoop]
  simp [h1, h2, h3]

theorem workerLoop_retry {T : Type} (hs : List (String × Handler T))
    (msg : Message T) (rest : List (Message T)) (h : Handler T) (e : Error)
    (h1 : msg.name ≠ "exit") (h2 : handlersGet hs msg.name = some h)
    (h3 : h msg.message = .error e) (h4 : 0 < msg.retries) :
    workerLoop hs true (msg :: rest) =
      LoopResult.cons
        (.retried msg { name := msg.name, message := msg.message, retries := msg.retries - 1 })
        (workerLoop hs true
          (rest ++ [{ name := msg.name, message := msg.message, retries := msg.retries - 1 }])) := by
  rw [workerLoop]
  simp [h1, h2, h3, h4]

theorem workerLoop_sendFail {T : Type} (hs : List (String × Handler T))
    (msg : Message T) (rest : List (Message T)) (h : Handler T) (e : Error)
    (h1 : msg.name ≠ "exit") (h2 : handlersGet hs msg.name = some h)
    (h3 : h msg.message = .error e) (h4 : 0 < msg.retries) :
    workerLoop hs false (msg :: rest) =
      .panicked "Failed to requeue task"
        [.retried msg { name := msg.name, message := msg.message, retries := msg.retries - 1 }] := by
  rw [workerLoop]
  simp [h1, h2, h3, h4]

theorem workerLoop_permFail {T : Type} (hs : List (String × Handler T)) (alive : Bool)
    (msg : Message T) (rest : List (Message T)) (h : Handler T) (e : Error)
    (h1 : msg.name ≠ "exit") (h2 : handlersGet hs msg.name = some h)
    (h3 : h msg.message = .error e) (h4 : ¬ 0 < msg.retries) :
    workerLoop hs alive (msg :: rest) =
      LoopResult.cons (.permanentlyFailed msg.name) (workerLoop hs alive rest) := by
  rw [workerLoop]
  simp [h1, h2, h3, h4]

theorem workerLoop_alive_no_panic {T : Type} (hs : List (String × Handler T)) :
    ∀ (n : Nat) (q : List (Message T)), qMeasure q ≤ n →
      (workerLoop hs true q).isPanic = false := by
  intro n
  induction n with
  | zero =>
    intro q hq
    match q with
    | [] => simp [workerLoop_nil, LoopResult.isPanic]
    | m :: rest => simp [qMeasure] at hq
  | succ n ih =>
    intro q hq
    match q with
    | [] => simp [workerLoop_nil, LoopResult.isPanic]
    | msg :: rest =>
      by_cases hname : msg.name = "exit"
      · rw [workerLoop_exit hs true msg rest hname]; rfl
      · cases hget : handlersGet hs msg.name with
        | none =>
          rw [workerLoop_noHandler hs true msg rest hname hget, isPanic_cons]
          refine ih rest ?_
          simp [qMeasure] at hq ⊢; omega
        | some h =>
          cases hres : h msg.message with
          | ok u =>
            cases u
            rw [workerLoop_ok hs true msg rest h hname hget hres, isPanic_cons]
            refine ih rest ?_
            simp [qMeasure] at hq ⊢; omega
          | error e =>
            by_cases hr : 0 < msg.retries
            · rw [workerLoop_retry hs msg rest h e hname hget hres hr, isPanic_cons]
              refine ih _ ?_
              simp [qMeasure] at hq ⊢
              omega
            · rw [workerLoop_permFail hs true msg rest h e hname hget hres hr, isPanic_cons]
              refine ih rest ?_
              simp [qMeasure] at hq ⊢; omega

theorem retried_mem_spec {T : Type} (hs : List (String × Handler T)) (alive : Bool) :
    ∀ (n : Nat) (q : List (Message T)), qMeasure q ≤ n →
      ∀ old new, Event.retried old new ∈ (workerLoop hs alive q).trace →
        new.name = old.name ∧ new.message = old.message ∧
        new.retries = old.retries - 1 ∧ 0 ≤ new.retries := by
  intro n
  induction n with
  | zero =>
    intro q hq
    match q with
    | [] => simp [workerLoop_nil, LoopResult.trace]
    | m :: rest => simp [qMeasure] at hq
  | succ n ih =>
    intro q hq old new hmem
    match q with
    | [] => simp [workerLoop_nil, LoopResult.trace] at hmem
    | msg :: rest =>
      by_cases hname : msg.name = "exit"
      · rw [workerLoop_exit hs alive msg rest hname] at hmem
        simp [LoopResult.trace] at hmem
      · cases hget : handlersGet hs msg.name with
        | none =>
          rw [workerLoop_noHandler hs alive msg rest hname hget, trace_cons] at hmem
          simp at hmem
          refine ih rest ?_ old new hmem
          simp [qMeasure] at hq ⊢; omega
        | some h =>
          cases hres : h msg.message with
          | ok u =>
            cases u
            rw [workerLoop_ok hs alive msg rest h hname hget hres, trace_cons] at hmem
            simp at hmem
            refine ih rest ?_ old new hmem
            simp [qMeasure] at hq ⊢; omega
          | error e =>
            by_cases hr : 0 < msg.retries
            · cases alive with
              | true =>
                rw [workerLoop_retry hs msg rest h e hname hget hres hr, trace_cons] at hmem
                simp at hmem
                rcases hmem with ⟨hold, hnew⟩ | hmem
                · subst hold; subst hnew
                  refine ⟨rfl, rfl, rfl, ?_⟩
                  simp only [Message.mk.injEq]
                  omega
                · refine ih _ ?_ old new hmem
                  simp [qMeasure] at hq ⊢
                  omega
              | false =>
                rw [workerLoop_sendFail hs msg rest h e hname hget hres hr] at hmem
                simp [LoopResult.trace] at hmem
                rcases hmem with ⟨hold, hnew⟩
                subst hold; subst hnew
                refine ⟨rfl, rfl, rfl, ?_⟩
                simp only [Message.mk.injEq]
                omega
            · rw [workerLoop_permFail hs alive msg rest h e hname hget hres hr, trace_cons] at hmem
              simp at hmem
              refine ih rest ?_ old new hmem
              simp [qMeasure] at hq ⊢; omega

theorem alwaysFail_invocations {T : Type} (hs : List (String × Handler T))
    (h : Handler T) (name : String) (hname : name ≠ "exit")
    (hget : handlersGet hs name = some h)
    (hfail : ∀ x, ∃ e, h x = Except.error e) :
    ∀ (n : Nat) (p : Option T) (r : Int), r.toNat = n →
      invocationCount (workerLoop hs true [{ name := name, message := p, retries := r }]).trace name
        = n + 1 := by
  intro n
  induction n with
  | zero =>
    intro p r hr
    obtain ⟨e, he⟩ := hfail p
    have hnr : ¬ 0 < r := by omega
    rw [workerLoop_permFail hs true { name := name, message := p, retries := r } [] h e hname hget he hnr,
        trace_cons, workerLoop_nil]
    simp [invocationCount, isInvocationOf, LoopResult.trace]
  | succ n ih =>
    intro p r hr
    obtain ⟨e, he⟩ := hfail p
    have hpos : 0 < r := by omega
    rw [workerLoop_retry hs { name := name, message := p, retries := r } [] h e hname hget he hpos,
        trace_cons]
    have hsub := ih p (r - 1) (by omega)
    simp only [List.nil_append] at *
    simp [invocationCount, isInvocationOf] at hsub ⊢
    omega

theorem containsKey_append_self {T : Type} (l : List (String × Handler T))
    (name : String) (h : Handler T) :
    containsKey (l ++ [(name, h)]) name = true := by
  induction l with
  | nil => simp [containsKey]
  | cons x xs ih => cases x; simp [containsKey, ih]

theorem handlersGet_append_of_not_contains {T : Type} (l : List (String × Handler T))
    (name : String) (h : Handler T) (hnc : containsKey l name = false) :
    handlersGet (l ++ [(name, h)]) name = some h := by
  induction l with
  | nil => simp [handlersGet]
  | cons x xs ih =>
    cases x with
    | mk k v =>
      simp [containsKey] at hnc
      simp [handlersGet, hnc.1, ih hnc.2]

/-- C1.  Counterexample to the claim as stated: with the receiving end
gone (the only situation in which a requeue send can fail), a handler
failure with retries left makes the worker thread panic with
"Failed to requeue task"; the loop does not continue to the next queued
item ("u" is never processed, no event mentions it). -/
theorem c1_counterexample :
    workerLoop [("t", alwaysFail)] false
        [{ name := "t", message := none, retries := 1 },
         { name := "u", message := none, retries := 1 }] =
      LoopResult.panicked "Failed to requeue task"
        [.retried { name := "t", message := none, retries := 1 }
           { name := "t", message := none, retries := 0 }] ∧
    (workerLoop [("t", alwaysFail)] false
        [{ name := "t", message := none, retries := 1 },
         { name := "u", message := none, retries := 1 }]).isPanic = true := by
  constructor
  · simp [workerLoop, handlersGet, alwaysFail]
  · simp [workerLoop, handlersGet, alwaysFail, LoopResult.isPanic]

/-- C1 (amended).  When the internal resubmission send fails (receiver no
longer alive), the Worker does not report the error and continue: the
`.expect` call panics the worker thread with "Failed to requeue task",
terminating the loop abnormally after the retry diagnostic; the failed
item and all later queued items are dropped.  (Such a send failure is
unreachable while the loop actually runs; see the requeue-safety
theorem.) -/
theorem c1_requeue_send_failure_panics {T : Type} (hs : List (String × Handler T))
    (msg : Message T) (rest : List (Message T)) (h : Handler T) (e : Error)
    (h1 : msg.name ≠ "exit") (h2 : handlersGet hs msg.name = some h)
    (h3 : h msg.message = .error e) (h4 : 0 < msg.retries) :
    workerLoop hs false (msg :: rest) =
      .panicked "Failed to requeue task"
        [.retried msg { name := msg.name, message := msg.message, retries := msg.retries - 1 }] :=
  workerLoop_sendFail hs msg rest h e h1 h2 h3 h4

/-- Witness for the amended C1 theorem at a concrete input. -/
theorem c1_requeue_send_failure_panics_witness :
    workerLoop [("t", alwaysFail)] false [{ name := "t", message := none, retries := 5 }] =
      .panicked "Failed to requeue task"
        [.retried { name := "t", message := none, retries := 5 }
           { name := "t", message := none, retries := 4 }] :=
  c1_requeue_send_failure_panics [("t", alwaysFail)]
    { name := "t", message := none, retries := 5 } [] alwaysFail (.ProcessingError "boom")
    (by simp) (by simp [handlersGet]) rfl (by decide)

/-- C2.  A handler that fails on every invocation, given a fresh work item
(built by `Message::new`, so with 10 retries) submitted under its name, is
invoked exactly 11 times before the item is dropped permanently. -/
theorem c2_fresh_item_invoked_eleven_times {T : Type} (hs : List (String × Handler T))
    (h : Handler T) (name : String) (p : Option T) (hname : name ≠ "exit")
    (hget : handlersGet hs name = some h)
    (hfail : ∀ x, ∃ e, h x = Except.error e) :
    invocationCount (workerLoop hs true [Message.new name p]).trace name = 11 := by
  have h10 := alwaysFail_invocations hs h name hname hget hfail 10 p 10 (by decide)
  simpa [Message.new] using h10

/-- Witness for C2 at a concrete input. -/
theorem c2_fresh_item_invoked_eleven_times_witness :
    invocationCount (workerLoop [("t", alwaysFail)] true [Message.new "t" none]).trace "t" = 11 :=
  c2_fresh_item_invoked_eleven_times [("t", alwaysFail)] alwaysFail "t" none
    (by simp) (by simp [handlersGet]) (fun x => ⟨.ProcessingError "boom", rfl⟩)

/-- C3.  Every item the Worker requeues keeps the name and payload of the
failed item, has a retry counter exactly one smaller, and that counter is
never negative; moreover every freshly constructed item starts with a
non-negative counter (10). -/
theorem c3_requeued_item_shape (T : Type) :
    (∀ (hs : List (String × Handler T)) (alive : Bool) (q : List (Message T))
        (old new : Message T),
        Event.retried old new ∈ (workerLoop hs alive q).trace →
          new.name = old.name ∧ new.message = old.message ∧
          new.retries = old.retries - 1 ∧ 0 ≤ new.retries) ∧
    (∀ (name : String) (p : Option T), 0 ≤ (Message.new name p).retries) := by
  constructor
  · intro hs alive q old new hmem
    exact retried_mem_spec hs alive (qMeasure q) q le_rfl old new hmem
  · intro name p
    simp [Message.new]

/-- Witness for C3 at a concrete input: the requeued copy of the failing
"t" item. -/
theorem c3_requeued_item_shape_witness :
    ({ name := "t", message := none, retries := 0 } : Message Nat).name =
        ({ name := "t", message := none, retries := 1 } : Message Nat).name ∧
      ({ name := "t", message := none, retries := 0 } : Message Nat).message =
        ({ name := "t", message := none, retries := 1 } : Message Nat).message ∧
      ({ name := "t", message := none, retries := 0 } : Message Nat).retries =
        ({ name := "t", message := none, retries := 1 } : Message Nat).retries - 1 ∧
      0 ≤ ({ name := "t", message := none, retries := 0 } : Message Nat).retries :=
  (c3_requeued_item_shape Nat).1 [("t", alwaysFail)] true
    [{ name := "t", message := none, retries := 1 }]
    { name := "t", message := none, retries := 1 }
    { name := "t", message := none, retries := 0 }
    (by simp [workerLoop, handlersGet, alwaysFail, LoopResult.cons, LoopResult.trace])

/-- C4.  `cleanup` sends the work item named "exit" with no payload and 0
retries on the hook; it returns `SendError` when the channel is closed,
`JoinError` when the worker thread terminated abnormally, and success
otherwise. -/
theorem c4_cleanup_behavior {T : Type} (q : List (Message T)) (joinPanicked : Bool) :
    cleanup false q joinPanicked = (.error .SendError, q) ∧
    cleanup true q true =
      (.error .JoinError, q ++ [{ name := "exit", message := none, retries := 0 }]) ∧
    cleanup true q false =
      (.ok (), q ++ [{ name := "exit", message := none, retries := 0 }]) := by
  refine ⟨?_, ?_, ?_⟩ <;> simp [cleanup, sendMessage]

/-- C5.  On receiving a work item named "exit" the loop exits at once:
no handler is invoked for it and no further queued item is processed (the
whole trace is the single exit event), and the loop has terminated. -/
theorem c5_exit_stops_loop_immediately {T : Type} (hs : List (String × Handler T))
    (alive : Bool) (p : Option T) (r : Int) (rest : List (Message T)) :
    workerLoop hs alive ({ name := "exit", message := p, retries := r } :: rest) =
      .finished [.exited] :=
  workerLoop_exit hs alive { name := "exit", message := p, retries := r } rest rfl

/-- C6.  Registering any handler under the reserved name "exit" fails with
`ExitHandler` and leaves the registry unchanged. -/
theorem c6_register_exit_rejected {T : Type} (c : InitialConfig T) (h : Handler T) :
    c.register_handler "exit" h = (.error .ExitHandler, c) := by
  simp [InitialConfig.register_handler]

/-- C7.  After a successful registration of `name`, a second registration
under the same name fails with `DuplicateHandler name`, leaves the
registry unchanged, and the handler stored for `name` is still the first
one. -/
theorem c7_duplicate_registration_rejected {T : Type} (c c1 : InitialConfig T)
    (name : String) (h1 h2 : Handler T)
    (hreg : c.register_handler name h1 = (.ok (), c1)) :
    c1.register_handler name h2 = (.error (.DuplicateHandler name), c1) ∧
      handlersGet c1.handlers name = some h1 := by
  unfold InitialConfig.register_handler at hreg
  by_cases hname : name = "exit"
  · simp [hname] at hreg
  · simp [hname] at hreg
    by_cases hck : containsKey c.handlers name
    · simp [hck] at hreg
    · simp [hck] at hreg
      subst hreg
      constructor
      · simp [InitialConfig.register_handler, hname, containsKey_append_self]
      · exact handlersGet_append_of_not_contains c.handlers name h1 (by simpa using hck)

/-- Witness for C7 at a concrete input. -/
theorem c7_duplicate_registration_rejected_witness :
    (InitialConfig.mk [("t", alwaysFail)]).register_handler "t" alwaysOk =
        (.error (.DuplicateHandler "t"), InitialConfig.mk [("t", alwaysFail)]) ∧
      handlersGet [("t", alwaysFail)] "t" = some alwaysFail :=
  c7_duplicate_registration_rejected (InitialConfig.mk []) (InitialConfig.mk [("t", alwaysFail)])
    "t" alwaysFail alwaysOk (by simp [InitialConfig.register_handler, containsKey])

/-- C8.  A work item whose handler succeeds is handled with exactly one
invocation and nothing is resubmitted: the loop continues on the untouched
remainder of the queue. -/
theorem c8_success_invoked_once {T : Type} (hs : List (String × Handler T)) (alive : Bool)
    (msg : Message T) (rest : List (Message T)) (h : Handler T)
    (h1 : msg.name ≠ "exit") (h2 : handlersGet hs msg.name = some h)
    (h3 : h msg.message = .ok ()) :
    workerLoop hs alive (msg :: rest) =
      LoopResult.cons (.succeeded msg.name) (workerLoop hs alive rest) ∧
    invocationCount (workerLoop hs alive [msg]).trace msg.name = 1 := by
  refine ⟨workerLoop_ok hs alive msg rest h h1 h2 h3, ?_⟩
  rw [workerLoop_ok hs alive msg [] h h1 h2 h3, trace_cons, workerLoop_nil]
  simp [invocationCount, isInvocationOf, LoopResult.trace]

/-- Witness for C8 at a concrete input. -/
theorem c8_success_invoked_once_witness :
    workerLoop [("t", alwaysOk)] true [{ name := "t", message := none, retries := 10 }] =
      LoopResult.cons (.succeeded "t") (workerLoop [("t", alwaysOk)] true []) ∧
    invocationCount
        (workerLoop [("t", alwaysOk)] true
          [{ name := "t", message := none, retries := 10 }]).trace "t" = 1 :=
  c8_success_invoked_once [("t", alwaysOk)] true
    { name := "t", message := none, retries := 10 } [] alwaysOk
    (by simp) (by simp [handlersGet]) rfl

/-- C9.  A work item (not named "exit") with no registered handler only
produces the no-handler diagnostic: no handler is invoked for it, the item
is dropped, and the loop continues with the remaining queue. -/
theorem c9_unknown_name_skipped {T : Type} (hs : List (String × Handler T)) (alive : Bool)
    (msg : Message T) (rest : List (Message T))
    (h1 : msg.name ≠ "exit") (h2 : handlersGet hs msg.name = none) :
    workerLoop hs alive (msg :: rest) =
      LoopResult.cons (.noHandler msg.name) (workerLoop hs alive rest) ∧
    invocationCount (workerLoop hs alive [msg]).trace msg.name = 0 := by
  refine ⟨workerLoop_noHandler hs alive msg rest h1 h2, ?_⟩
  rw [workerLoop_noHandler hs alive msg [] h1 h2, trace_cons, workerLoop_nil]
  simp [invocationCount, isInvocationOf, LoopResult.trace]

/-- Witness for C9 at a concrete input. -/
theorem c9_unknown_name_skipped_witness :
    workerLoop ([] : List (String × Handler Nat)) true
        [{ name := "x", message := none, retries := 10 }] =
      LoopResult.cons (.noHandler "x") (workerLoop [] true []) ∧
    invocationCount
        (workerLoop ([] : List (String × Handler Nat)) true
          [{ name := "x", message := none, retries := 10 }]).trace "x" = 0 :=
  c9_unknown_name_skipped [] true { name := "x", message := none, retries := 10 } []
    (by simp) rfl

/-- C10.  The requeue send guarded by `expect("Failed to requeue task")`
can never fail while the worker loop runs, because the loop itself owns
the receiving end of the channel (`alive := true` in the model of `run`):
no execution of the spawned worker ends in a panic. -/
theorem c10_requeue_send_never_fails {T : Type} (config : InitialConfig T)
    (q : List (Message T)) :
    (run config q).isPanic = false :=
  workerLoop_alive_no_panic config.handlers (qMeasure q) q le_rfl

end AuthBackground
